import Mathlib

/-!
# Verification of the `ordway` client configuration/session-lifecycle core

Shallow embedding of `src/ordway/client.py` (`OrdwayClient`): construction,
api-version validation, session header/proxy merging, scoped session
lifecycle, and the environment-variable constructor `from_env`.

Python strings are embedded as Lean `String`, Python `dict[str, str]` as an
association list with Python `dict` lookup/assignment semantics, and the
ambient process environment as an explicit association list argument.
Exceptions are embedded with `Except`; code raising an exception returns
`Except.error` carrying the exception value together with the caller-visible
state at the moment of the raise.
-/

deriving instance DecidableEq for Except

/-- Python `dict[str, str]`, modelled as an association list.  Only lookup
(`Dict.get`), assignment (`Dict.set`) and `dict.update` semantics are needed;
all are keyed on string equality, as in Python. -/
abbrev Dict := List (String × String)

/-- Python `d.get(k)` / `d[k]` lookup: the value bound to `k`, if any. -/
def Dict.get : Dict → String → Option String
  | [], _ => none
  | p :: d, k => if p.1 == k then some p.2 else Dict.get d k

/-- Python `d[k] = v`: rebind `k` to `v`, leaving every other key's binding
unchanged. -/
def Dict.set (d : Dict) (k v : String) : Dict :=
  d.filter (fun p => !(p.1 == k)) ++ [(k, v)]

/-- Python `d.update(e)`: merge the entries of `e` into `d`, overriding `d`'s
binding on key collision and keeping all other bindings of `d`. -/
def Dict.update (d e : Dict) : Dict :=
  e.foldl (fun acc p => Dict.set acc p.1 p.2) d

/-- The keys of a dictionary. -/
def Dict.keys (d : Dict) : List String :=
  d.map (fun p => p.1)

/-- Modelled from the spec: the transport session (`requests.Session`, an
external collaborator; spec Glossary: "a reusable transport-layer object that
holds connection pooling, default headers, and default proxy configuration").
We model its default headers, default proxies, and the number of times
`close()` has been called; `close` releases transport resources, never raises,
and is safe to call repeatedly. -/
structure Session where
  headers : Dict
  proxies : Dict
  closeCount : Nat
deriving DecidableEq

/-- `session.close()`: releases the session's transport resources.  Total:
closing an already-closed session does not raise. -/
def Session.close (s : Session) : Session :=
  { s with closeCount := s.closeCount + 1 }

/-- Modelled from the spec: `ordway.session.session_factory` (file
`ordway/session.py` is not under `src/`).  Spec section 4.1: given `None`,
construct and return a new default session with empty default headers/proxies;
given a session, return it unchanged (adoption, not copying). -/
def session_factory : Option Session → Session
  | none => { headers := [], proxies := [], closeCount := 0 }
  | some s => s

/-- Modelled from the spec: `ordway.exceptions.OrdwayClientException` (file
`ordway/exceptions.py` is not under `src/`), the single configuration-error
kind, distinguished by its message. -/
structure OrdwayClientException where
  message : String
deriving DecidableEq

/-- Modelled from the spec: `ordway.consts.SUPPORTED_API_VERSIONS` (file
`ordway/consts.py` is not under `src/`): "a fixed, finite set known at build
time", declared as a single constant set.  The spec fixes the default version
`"1"` (unprefixed) as a member (section 6, section 8 example). -/
def SUPPORTED_API_VERSIONS : List String := ["1"]

/-- Modelled from the spec: a resource-interface facade from the `ordway.api`
module (not under `src/`).  Each is created once at client construction, bound
to the owning client (a non-owning back reference, omitted here) and to the
`sandbox` flag (client.py lines 50-69). -/
structure ResourceInterface where
  resource : String
  sandbox : Bool
deriving DecidableEq

/-- The resource-interface attributes assigned in `__init__`
(client.py lines 50-69), in assignment order. -/
def interfaceNames : List String :=
  ["products", "customers", "subscriptions", "invoices", "payments",
   "credits", "plans", "refunds", "webhooks", "journal_entries",
   "payment_runs", "statements", "coupons", "orders", "usages",
   "billing_runs", "revenue_schedules", "billing_schedules",
   "revenue_rules", "chart_of_accounts"]

/-- The attribute state of a fully constructed `OrdwayClient`
(client.py lines 16-69).  `_api_version` is the private attribute behind the
`api_version` property; `sandbox` itself is not stored on the client, only
propagated to each resource interface. -/
structure OrdwayClient where
  email : String
  api_key : String
  company : String
  user_token : String
  session : Session
  headers : Option Dict
  proxies : Option Dict
  _api_version : String
  interfaces : List ResourceInterface
deriving DecidableEq

/-- Lines 79-80 of the `api_version` setter: Python
`if api_version.startswith("v"): api_version = api_version[1:]` — strip one
leading lowercase `'v'` character if present, embedded at the character-list
level of the string. -/
def stripLeadingV (s : String) : String :=
  match s.data with
  | 'v' :: rest => String.mk rest
  | _ => s

/-- The message of the configuration error raised by `_verify_api_version`
(lines 91-93): the stripped version, reported with the `"v"` prefix re-added. -/
def versionErrorMessage (version : String) : String :=
  "OrdwayClient does not currently support the API version \"v" ++ version ++ "\"."

/-- `OrdwayClient._verify_api_version` (lines 85-93), as a function of the
stored version `self.api_version`: raises `OrdwayClientException` when the
stored version is not in `SUPPORTED_API_VERSIONS`. -/
def verify_api_version (version : String) : Except OrdwayClientException Unit :=
  if version ∈ SUPPORTED_API_VERSIONS then Except.ok ()
  else Except.error { message := versionErrorMessage version }

/-- The `api_version` property getter (lines 71-75). -/
def OrdwayClient.api_version (c : OrdwayClient) : String :=
  c._api_version

/-- Outcome of an `api_version` setter call: the post-call object state and
whether the call raised.  In Python the object survives a raising setter call,
so both are caller-visible. -/
structure SetVersionOutcome where
  client : OrdwayClient
  result : Except OrdwayClientException Unit
deriving DecidableEq

/-- The `api_version` property setter (lines 77-83): strip one leading `'v'`,
store the remainder into `_api_version`, then verify.  The assignment on line
82 happens before the verification on line 83, so when verification raises the
stored version is already the stripped input. -/
def OrdwayClient.set_api_version (c : OrdwayClient) (api_version : String) :
    SetVersionOutcome :=
  let stripped := stripLeadingV api_version
  let c' := { c with _api_version := stripped }
  { client := c', result := verify_api_version stripped }

/-- Caller-visible state when `__init__` raises: the exception, the state of
the (possibly caller-supplied, hence shared) session object at the moment of
the raise, and whether any resource-interface attribute had been assigned yet
(lines 50-69 run only after the `api_version` assignment on line 47). -/
structure InitFailure where
  exc : OrdwayClientException
  session : Session
  interfacesAssigned : Bool
deriving DecidableEq

/-- Lines 42-43: `if headers is not None: self.session.headers.update(headers)`. -/
def applyHeaders (s : Session) : Option Dict → Session
  | some h => { s with headers := Dict.update s.headers h }
  | none => s

/-- Lines 44-45: `if proxies is not None: self.session.proxies.update(proxies)`. -/
def applyProxies (s : Session) : Option Dict → Session
  | some p => { s with proxies := Dict.update s.proxies p }
  | none => s

/-- `OrdwayClient.__init__` (lines 21-69): store the credentials verbatim,
obtain the session from `session_factory`, merge the provided headers and
proxies into it, run the validated `api_version` setter (line 47; its internal
assignment of `_api_version` precedes validation), and only then construct the
resource interfaces (lines 50-69). -/
def OrdwayClient.init (email api_key company user_token api_version : String)
    (sandbox : Bool) (proxies : Option Dict) (headers : Option Dict)
    (session : Option Session) : Except InitFailure OrdwayClient :=
  let s := applyProxies (applyHeaders (session_factory session) headers) proxies
  let stripped := stripLeadingV api_version
  match verify_api_version stripped with
  | Except.error exc =>
      Except.error { exc := exc, session := s, interfacesAssigned := false }
  | Except.ok _ =>
      Except.ok
        { email := email, api_key := api_key, company := company,
          user_token := user_token, session := s, headers := headers,
          proxies := proxies, _api_version := stripped,
          interfaces :=
            interfaceNames.map (fun n => { resource := n, sandbox := sandbox }) }

/-- `__enter__` (lines 95-96): returns `self` unchanged. -/
def OrdwayClient.enter (c : OrdwayClient) : OrdwayClient :=
  c

/-- `__exit__` (lines 98-99): closes the session.  Total, mirroring that
`Session.close` never raises. -/
def OrdwayClient.exit (c : OrdwayClient) : OrdwayClient :=
  { c with session := Session.close c.session }

/-- Severity of a log entry emitted through the module logger (line 13). -/
inductive LogLevel where
  | debug
  | error
deriving DecidableEq

/-- One log entry: severity and the formatted message. -/
structure LogEntry where
  level : LogLevel
  message : String
deriving DecidableEq

/-- The `logger.debug` message of lines 113-117, with the `%s` placeholders
filled. -/
def fromEnvDebugMessage (email company : String) : String :=
  "Instantiating client from environment with email \"" ++ email ++
    "\" and company \"" ++ company ++ "\"."

/-- The `err_message` of lines 119-123 (three adjacent Python string literals,
concatenated without separators). -/
def fromEnvErrMessage : String :=
  "Cannot instantiate `OrdwayClient` with `.from_env`." ++
    "Must set all of the following env vars: `ORDWAY_EMAIL`, `ORDWAY_API_KEY`," ++
    "`ORDWAY_COMPANY`, and `ORDWAY_USER_TOKEN`."

/-- `OrdwayClient.from_env` (lines 101-135).  The process environment is
passed explicitly; the second component is the list of log entries emitted
during the call, in emission order (so on the failure path the `logger.error`
entry of line 125 is emitted before the exception of line 127 is raised).
If any of the four required variables is absent, the first absent lookup
raises `KeyError` inside the `try` block and the `except` branch raises
`OrdwayClientException`; otherwise the optional `ORDWAY_API_VERSION` is passed
through (default `"1"`) and construction is delegated to `__init__` with
`sandbox`, `proxies`, `headers` and `session` left at their defaults. -/
def OrdwayClient.from_env (env : Dict) :
    Except OrdwayClientException OrdwayClient × List LogEntry :=
  match Dict.get env "ORDWAY_EMAIL", Dict.get env "ORDWAY_API_KEY",
        Dict.get env "ORDWAY_COMPANY", Dict.get env "ORDWAY_USER_TOKEN" with
  | some email, some api_key, some company, some user_token =>
      let logs := [{ level := LogLevel.debug,
                     message := fromEnvDebugMessage email company }]
      let api_version := (Dict.get env "ORDWAY_API_VERSION").getD "1"
      (Except.mapError InitFailure.exc
        (OrdwayClient.init email api_key company user_token api_version
          false none none none),
       logs)
  | _, _, _, _ =>
      (Except.error { message := fromEnvErrMessage },
       [{ level := LogLevel.error, message := fromEnvErrMessage }])

/-- The session object's state after a construction attempt — shared with the
caller when the caller supplied the session, whether or not construction
succeeded. -/
def initSession : Except InitFailure OrdwayClient → Session
  | Except.error f => f.session
  | Except.ok c => c.session

/-- A concrete fully constructed client, as produced by
`OrdwayClient.init "a@b.com" "k" "acme" "t" "1" false none none none`. -/
def baseClient : OrdwayClient :=
  { email := "a@b.com", api_key := "k", company := "acme", user_token := "t",
    session := session_factory none, headers := none, proxies := none,
    _api_version := "1",
    interfaces := interfaceNames.map (fun n => { resource := n, sandbox := false }) }

/-- An environment carrying all four required variables (used by witnesses). -/
def envAllSet : Dict :=
  [("ORDWAY_EMAIL", "a@b.com"), ("ORDWAY_API_KEY", "k"),
   ("ORDWAY_COMPANY", "acme"), ("ORDWAY_USER_TOKEN", "t")]

/-- Unfolding `Dict.keys` over cons. -/
theorem Dict.keys_cons (p : String × String) (e : Dict) :
    Dict.keys (p :: e) = p.1 :: Dict.keys e := rfl

/-- Looking up the key just assigned yields the assigned value. -/
theorem Dict.get_set_self (d : Dict) (k v : String) :
    Dict.get (Dict.set d k v) k = some v := by
  induction d with
  | nil => simp [Dict.set, Dict.get]
  | cons p d ih =>
    simp only [Dict.set, List.filter_cons] at ih ⊢
    by_cases h : p.1 = k
    · simp [h]
      simpa using ih
    · simp [h, Dict.get]
      simpa using ih

/-- Assignment leaves every other key's binding unchanged. -/
theorem Dict.get_set_ne (d : Dict) (k v k' : String) (hne : k' ≠ k) :
    Dict.get (Dict.set d k v) k' = Dict.get d k' := by
  induction d with
  | nil => simp [Dict.set, Dict.get, Ne.symm hne]
  | cons p d ih =>
    simp only [Dict.set, List.filter_cons] at ih ⊢
    by_cases h : p.1 = k
    · simp [h, Dict.get, hne, Ne.symm hne]
      simpa using ih
    · by_cases h3 : p.1 = k'
      · simp [h, Dict.get, h3, hne, Ne.symm hne]
      · simp [h, Dict.get, h3, hne, Ne.symm hne]
        simpa using ih

/-- `dict.update` leaves keys outside the merged mapping unchanged. -/
theorem Dict.get_update_of_not_mem (d e : Dict) (k : String)
    (h : k ∉ Dict.keys e) : Dict.get (Dict.update d e) k = Dict.get d k := by
  induction e generalizing d with
  | nil => rfl
  | cons p e ih =>
    rw [Dict.keys_cons] at h
    rw [Dict.update, List.foldl_cons]
    rw [show (List.foldl (fun acc q => Dict.set acc q.1 q.2) (Dict.set d p.1 p.2) e)
          = Dict.update (Dict.set d p.1 p.2) e from rfl]
    rw [ih _ (fun hh => h (List.mem_cons_of_mem _ hh))]
    exact Dict.get_set_ne _ _ _ _ (fun hh => h (hh ▸ List.mem_cons_self _ _))

/-- `dict.update` overrides every key of the merged mapping (whose keys are
distinct, as they are for a Python dict). -/
theorem Dict.get_update_of_mem (d e : Dict) (k : String)
    (hnd : (Dict.keys e).Nodup) (h : k ∈ Dict.keys e) :
    Dict.get (Dict.update d e) k = Dict.get e k := by
  induction e generalizing d with
  | nil => simp [Dict.keys] at h
  | cons p e ih =>
    rw [Dict.keys_cons] at hnd h
    obtain ⟨hp, hnd'⟩ := List.nodup_cons.mp hnd
    rw [Dict.update, List.foldl_cons]
    rw [show (List.foldl (fun acc q => Dict.set acc q.1 q.2) (Dict.set d p.1 p.2) e)
          = Dict.update (Dict.set d p.1 p.2) e from rfl]
    rcases List.mem_cons.mp h with h | h
    · subst h
      rw [Dict.get_update_of_not_mem _ _ _ hp, Dict.get_set_self]
      simp [Dict.get]
    · have hne : k ≠ p.1 := by intro hh; exact hp (hh ▸ h)
      rw [ih _ hnd' h]
      simp [Dict.get, Ne.symm hne]

/-- Whatever the outcome of `__init__`, the session object's final state is
the factory session with the provided headers and proxies merged in. -/
theorem initSession_init (email api_key company user_token api_version : String)
    (sandbox : Bool) (proxies headers : Option Dict) (session : Option Session) :
    initSession (OrdwayClient.init email api_key company user_token api_version
        sandbox proxies headers session)
      = applyProxies (applyHeaders (session_factory session) headers) proxies := by
  simp only [OrdwayClient.init]
  split
  · rfl
  · rfl

/-- C1, counterexample: construct a client with version "1", then assign the
unsupported version "2".  The assignment raises (`result.isOk = false`), but
reading `api_version` immediately afterwards returns "2" — the invalid value —
not the prior supported value "1", so the stored version has left
`SUPPORTED_API_VERSIONS`. -/
theorem set_api_version_no_rollback_counterexample :
    Except.map
        (fun c => (OrdwayClient.api_version c,
                   (OrdwayClient.set_api_version c "2").result.isOk,
                   OrdwayClient.api_version (OrdwayClient.set_api_version c "2").client))
        (OrdwayClient.init "a@b.com" "k" "acme" "t" "1" false none none none)
      = Except.ok ("1", false, "2") ∧
    "2" ∉ SUPPORTED_API_VERSIONS ∧ ("2" : String) ≠ "1" := by
  refine ⟨by decide, by decide, by decide⟩

/-- C1, amended: assigning an unsupported version string to a constructed
client raises a configuration error, but the stripped invalid version is
stored before validation runs (line 82 precedes line 83), so reading
`api_version` after the failed assignment returns the new stripped
unsupported value, not the previously-valid one. -/
theorem set_api_version_stores_stripped_on_failure
    (c : OrdwayClient) (v : String)
    (h : stripLeadingV v ∉ SUPPORTED_API_VERSIONS) :
    (OrdwayClient.set_api_version c v).result =
      Except.error { message := versionErrorMessage (stripLeadingV v) } ∧
    OrdwayClient.api_version (OrdwayClient.set_api_version c v).client
      = stripLeadingV v := by
  constructor
  · simp [OrdwayClient.set_api_version, verify_api_version, h]
  · rfl

/-- Witness for `set_api_version_stores_stripped_on_failure` at the concrete
client `baseClient` and version "v9". -/
theorem set_api_version_stores_stripped_on_failure_witness :
    stripLeadingV "v9" ∉ SUPPORTED_API_VERSIONS ∧
    ((OrdwayClient.set_api_version baseClient "v9").result =
        Except.error { message := versionErrorMessage (stripLeadingV "v9") } ∧
      OrdwayClient.api_version (OrdwayClient.set_api_version baseClient "v9").client
        = stripLeadingV "v9") :=
  ⟨by decide, set_api_version_stores_stripped_on_failure baseClient "v9" (by decide)⟩

/-- C2: for every supported version `v`, written either bare or with a
leading "v" prefix, construction succeeds and the `api_version` getter
returns the prefix-stripped form, i.e. `v` itself. -/
theorem init_supported_version_ok
    (email api_key company user_token v w : String) (sandbox : Bool)
    (proxies headers : Option Dict) (session : Option Session)
    (hv : v ∈ SUPPORTED_API_VERSIONS) (hw : w = v ∨ w = "v" ++ v) :
    ∃ c, OrdwayClient.init email api_key company user_token w sandbox
           proxies headers session = Except.ok c ∧
         OrdwayClient.api_version c = v := by
  have hv1 : v = "1" := by simpa [SUPPORTED_API_VERSIONS] using hv
  subst hv1
  rcases hw with rfl | rfl
  · exact ⟨_, rfl, rfl⟩
  · exact ⟨_, rfl, rfl⟩

/-- Witness for `init_supported_version_ok` at the supported version "1"
written with the "v" prefix. -/
theorem init_supported_version_ok_witness :
    ("1" ∈ SUPPORTED_API_VERSIONS ∧ ("v1" : String) = "v" ++ "1") ∧
    ∃ c, OrdwayClient.init "a@b.com" "k" "acme" "t" "v1" false none none none
           = Except.ok c ∧
         OrdwayClient.api_version c = "1" :=
  ⟨⟨by decide, by decide⟩,
   init_supported_version_ok "a@b.com" "k" "acme" "t" "1" "v1" false none none none
     (by decide) (Or.inr (by decide))⟩

/-- C3: for every version whose stripped form is unsupported, both
construction and assignment raise a configuration error whose message
reports the stripped version with the "v" prefix re-added. -/
theorem unsupported_version_error_message
    (email api_key company user_token v : String) (sandbox : Bool)
    (proxies headers : Option Dict) (session : Option Session) (c : OrdwayClient)
    (h : stripLeadingV v ∉ SUPPORTED_API_VERSIONS) :
    (∃ f, OrdwayClient.init email api_key company user_token v sandbox
            proxies headers session = Except.error f ∧
          f.exc.message =
            "OrdwayClient does not currently support the API version \"v"
              ++ stripLeadingV v ++ "\".") ∧
    (OrdwayClient.set_api_version c v).result =
      Except.error { message :=
        "OrdwayClient does not currently support the API version \"v"
          ++ stripLeadingV v ++ "\"." } := by
  have hv : verify_api_version (stripLeadingV v) =
      Except.error { message := versionErrorMessage (stripLeadingV v) } := by
    simp [verify_api_version, h]
  constructor
  · refine ⟨{ exc := { message := versionErrorMessage (stripLeadingV v) },
              session := applyProxies (applyHeaders (session_factory session) headers) proxies,
              interfacesAssigned := false }, ?_, ?_⟩
    · simp [OrdwayClient.init, hv]
    · simp [versionErrorMessage]
  · simp [OrdwayClient.set_api_version, hv, versionErrorMessage]

/-- Witness for `unsupported_version_error_message` at the unsupported
version "v2". -/
theorem unsupported_version_error_message_witness :
    stripLeadingV "v2" ∉ SUPPORTED_API_VERSIONS ∧
    ((∃ f, OrdwayClient.init "a@b.com" "k" "acme" "t" "v2" false none none none
             = Except.error f ∧
           f.exc.message =
             "OrdwayClient does not currently support the API version \"v"
               ++ stripLeadingV "v2" ++ "\".") ∧
     (OrdwayClient.set_api_version baseClient "v2").result =
       Except.error { message :=
         "OrdwayClient does not currently support the API version \"v"
           ++ stripLeadingV "v2" ++ "\"." }) :=
  ⟨by decide,
   unsupported_version_error_message "a@b.com" "k" "acme" "t" "v2" false
     none none none baseClient (by decide)⟩

/-- Helper: when any of the four required environment variables is absent,
`from_env` takes the `except KeyError` path: one error-level log entry, then
the configuration error. -/
theorem from_env_fallback (env : Dict)
    (h : Dict.get env "ORDWAY_EMAIL" = none ∨ Dict.get env "ORDWAY_API_KEY" = none ∨
         Dict.get env "ORDWAY_COMPANY" = none ∨ Dict.get env "ORDWAY_USER_TOKEN" = none) :
    OrdwayClient.from_env env =
      (Except.error { message := fromEnvErrMessage },
       [{ level := LogLevel.error, message := fromEnvErrMessage }]) := by
  rcases h1 : Dict.get env "ORDWAY_EMAIL" with _ | e1 <;>
  rcases h2 : Dict.get env "ORDWAY_API_KEY" with _ | e2 <;>
  rcases h3 : Dict.get env "ORDWAY_COMPANY" with _ | e3 <;>
  rcases h4 : Dict.get env "ORDWAY_USER_TOKEN" with _ | e4 <;>
    simp_all [OrdwayClient.from_env]

/-- Helper: unsupported stripped version makes `__init__` raise, with the
session already merged and no interfaces assigned. -/
theorem init_error_eq (email api_key company user_token api_version : String)
    (sandbox : Bool) (proxies headers : Option Dict) (session : Option Session)
    (h : stripLeadingV api_version ∉ SUPPORTED_API_VERSIONS) :
    OrdwayClient.init email api_key company user_token api_version sandbox
        proxies headers session =
      Except.error
        { exc := { message := versionErrorMessage (stripLeadingV api_version) },
          session := applyProxies (applyHeaders (session_factory session) headers) proxies,
          interfacesAssigned := false } := by
  simp [OrdwayClient.init, verify_api_version, h]

/-- Helper: a successfully constructed client's attributes, read off from
`__init__`. -/
theorem init_ok_fields (email api_key company user_token api_version : String)
    (sandbox : Bool) (proxies headers : Option Dict) (session : Option Session)
    (c : OrdwayClient)
    (h : OrdwayClient.init email api_key company user_token api_version sandbox
           proxies headers session = Except.ok c) :
    c.email = email ∧ c.api_key = api_key ∧ c.company = company ∧
    c.user_token = user_token ∧ c.headers = headers ∧ c.proxies = proxies ∧
    c.session = applyProxies (applyHeaders (session_factory session) headers) proxies ∧
    c._api_version = stripLeadingV api_version ∧
    c.interfaces = interfaceNames.map (fun n => { resource := n, sandbox := sandbox }) := by
  simp only [OrdwayClient.init] at h
  split at h
  · exact absurd h (by simp)
  · injection h with h'
    subst h'
    exact ⟨rfl, rfl, rfl, rfl, rfl, rfl, rfl, rfl, rfl⟩

/-- C4: a construction attempt that fails version validation raises before
any resource-interface attribute is assigned, and a `from_env` attempt that
fails environment loading produces no client object at all — in both cases no
resource interface is reachable. -/
theorem config_error_precedes_interfaces :
    (∀ (email api_key company user_token api_version : String) (sandbox : Bool)
       (proxies headers : Option Dict) (session : Option Session) (f : InitFailure),
        OrdwayClient.init email api_key company user_token api_version sandbox
          proxies headers session = Except.error f →
        f.interfacesAssigned = false) ∧
    (∀ env : Dict,
        (Dict.get env "ORDWAY_EMAIL" = none ∨ Dict.get env "ORDWAY_API_KEY" = none ∨
         Dict.get env "ORDWAY_COMPANY" = none ∨ Dict.get env "ORDWAY_USER_TOKEN" = none) →
        (OrdwayClient.from_env env).1 = Except.error { message := fromEnvErrMessage }) := by
  constructor
  · intro email api_key company user_token api_version sandbox proxies headers session f h
    simp only [OrdwayClient.init] at h
    split at h
    · injection h with h'
      rw [← h']
    · exact absurd h (by simp)
  · intro env h
    rw [from_env_fallback env h]

/-- Witness for `config_error_precedes_interfaces`: a concrete failing
construction and a concrete empty environment. -/
theorem config_error_precedes_interfaces_witness :
    (∃ f, OrdwayClient.init "a@b.com" "k" "acme" "t" "9" false none none none
            = Except.error f ∧ f.interfacesAssigned = false) ∧
    (OrdwayClient.from_env []).1 = Except.error { message := fromEnvErrMessage } := by
  constructor
  · exact ⟨_, rfl,
      config_error_precedes_interfaces.1 "a@b.com" "k" "acme" "t" "9" false
        none none none _ rfl⟩
  · exact config_error_precedes_interfaces.2 [] (Or.inl rfl)

set_option maxRecDepth 8192 in
/-- C5: with any required environment variable absent, `from_env` emits one
error-level log entry and raises a configuration error whose message lists
all four required variable names (each name occurs in the message), and no
client is constructed. -/
theorem from_env_missing_required_vars (env : Dict)
    (h : Dict.get env "ORDWAY_EMAIL" = none ∨ Dict.get env "ORDWAY_API_KEY" = none ∨
         Dict.get env "ORDWAY_COMPANY" = none ∨ Dict.get env "ORDWAY_USER_TOKEN" = none) :
    OrdwayClient.from_env env =
      (Except.error { message := fromEnvErrMessage },
       [{ level := LogLevel.error, message := fromEnvErrMessage }]) ∧
    (∃ a b : String, fromEnvErrMessage = a ++ "ORDWAY_EMAIL" ++ b) ∧
    (∃ a b : String, fromEnvErrMessage = a ++ "ORDWAY_API_KEY" ++ b) ∧
    (∃ a b : String, fromEnvErrMessage = a ++ "ORDWAY_COMPANY" ++ b) ∧
    (∃ a b : String, fromEnvErrMessage = a ++ "ORDWAY_USER_TOKEN" ++ b) := by
  refine ⟨from_env_fallback env h, ?_, ?_, ?_, ?_⟩
  · exact ⟨"Cannot instantiate `OrdwayClient` with `.from_env`.Must set all of the following env vars: `",
           "`, `ORDWAY_API_KEY`,`ORDWAY_COMPANY`, and `ORDWAY_USER_TOKEN`.", by decide⟩
  · exact ⟨"Cannot instantiate `OrdwayClient` with `.from_env`.Must set all of the following env vars: `ORDWAY_EMAIL`, `",
           "`,`ORDWAY_COMPANY`, and `ORDWAY_USER_TOKEN`.", by decide⟩
  · exact ⟨"Cannot instantiate `OrdwayClient` with `.from_env`.Must set all of the following env vars: `ORDWAY_EMAIL`, `ORDWAY_API_KEY`,`",
           "`, and `ORDWAY_USER_TOKEN`.", by decide⟩
  · exact ⟨"Cannot instantiate `OrdwayClient` with `.from_env`.Must set all of the following env vars: `ORDWAY_EMAIL`, `ORDWAY_API_KEY`,`ORDWAY_COMPANY`, and `",
           "`.", by decide⟩

/-- Witness for `from_env_missing_required_vars` at the empty environment. -/
theorem from_env_missing_required_vars_witness :
    Dict.get [] "ORDWAY_EMAIL" = none ∧
    OrdwayClient.from_env [] =
      (Except.error { message := fromEnvErrMessage },
       [{ level := LogLevel.error, message := fromEnvErrMessage }]) :=
  ⟨rfl, (from_env_missing_required_vars [] (Or.inl rfl)).1⟩

/-- C6: with all four required variables present, `from_env` delegates to
`__init__` with the environment's credential values, the optional
`ORDWAY_API_VERSION` (default `"1"`) as the version argument, `sandbox =
false`, and no explicit proxies, headers or session; any client it returns
carries exactly the environment's credential values, no stored
headers/proxies, a factory-fresh session, and sandbox-off interfaces. -/
theorem from_env_delegates_to_init (env : Dict) (e1 e2 e3 e4 : String)
    (h1 : Dict.get env "ORDWAY_EMAIL" = some e1)
    (h2 : Dict.get env "ORDWAY_API_KEY" = some e2)
    (h3 : Dict.get env "ORDWAY_COMPANY" = some e3)
    (h4 : Dict.get env "ORDWAY_USER_TOKEN" = some e4) :
    (OrdwayClient.from_env env).1 =
      Except.mapError InitFailure.exc
        (OrdwayClient.init e1 e2 e3 e4
          ((Dict.get env "ORDWAY_API_VERSION").getD "1") false none none none) ∧
    ∀ c, (OrdwayClient.from_env env).1 = Except.ok c →
      c.email = e1 ∧ c.api_key = e2 ∧ c.company = e3 ∧ c.user_token = e4 ∧
      c.headers = none ∧ c.proxies = none ∧ c.session = session_factory none ∧
      ∀ i ∈ c.interfaces, i.sandbox = false := by
  have hfe : (OrdwayClient.from_env env).1 =
      Except.mapError InitFailure.exc
        (OrdwayClient.init e1 e2 e3 e4
          ((Dict.get env "ORDWAY_API_VERSION").getD "1") false none none none) := by
    simp [OrdwayClient.from_env, h1, h2, h3, h4]
  refine ⟨hfe, ?_⟩
  intro c hc
  rw [hfe] at hc
  cases hinit : OrdwayClient.init e1 e2 e3 e4
      ((Dict.get env "ORDWAY_API_VERSION").getD "1") false none none none with
  | error f => rw [hinit] at hc; exact absurd hc (by simp [Except.mapError])
  | ok c0 =>
    rw [hinit] at hc
    simp only [Except.mapError] at hc
    injection hc with hc'
    subst hc'
    obtain ⟨f1, f2, f3, f4, fh, fp, fs, -, fi⟩ :=
      init_ok_fields e1 e2 e3 e4 ((Dict.get env "ORDWAY_API_VERSION").getD "1")
        false none none none c0 hinit
    refine ⟨f1, f2, f3, f4, fh, fp, fs, ?_⟩
    intro i hi
    rw [fi] at hi
    obtain ⟨n, -, rfl⟩ := List.mem_map.mp hi
    rfl

/-- Witness for `from_env_delegates_to_init` at a concrete environment
carrying all four required variables and no version override. -/
theorem from_env_delegates_to_init_witness :
    (Dict.get envAllSet "ORDWAY_EMAIL" = some "a@b.com" ∧
     Dict.get envAllSet "ORDWAY_API_KEY" = some "k" ∧
     Dict.get envAllSet "ORDWAY_COMPANY" = some "acme" ∧
     Dict.get envAllSet "ORDWAY_USER_TOKEN" = some "t") ∧
    (OrdwayClient.from_env envAllSet).1 =
      Except.mapError InitFailure.exc
        (OrdwayClient.init "a@b.com" "k" "acme" "t"
          ((Dict.get envAllSet "ORDWAY_API_VERSION").getD "1") false none none none) :=
  ⟨⟨rfl, rfl, rfl, rfl⟩,
   (from_env_delegates_to_init envAllSet "a@b.com" "k" "acme" "t"
     rfl rfl rfl rfl).1⟩

/-- C7: at construction, a provided headers (resp. proxies) mapping is merged
into the session's default headers (resp. proxies): merged keys override,
all other keys keep their prior binding; with both mappings absent the
adopted session is left entirely untouched. -/
theorem init_merges_headers_proxies
    (email api_key company user_token api_version : String) (sandbox : Bool)
    (s : Session) (hd pd : Dict) (k : String)
    (hnd : (Dict.keys hd).Nodup) (pnd : (Dict.keys pd).Nodup) :
    (k ∈ Dict.keys hd →
      Dict.get (initSession (OrdwayClient.init email api_key company user_token
          api_version sandbox (some pd) (some hd) (some s))).headers k
        = Dict.get hd k) ∧
    (k ∉ Dict.keys hd →
      Dict.get (initSession (OrdwayClient.init email api_key company user_token
          api_version sandbox (some pd) (some hd) (some s))).headers k
        = Dict.get s.headers k) ∧
    (k ∈ Dict.keys pd →
      Dict.get (initSession (OrdwayClient.init email api_key company user_token
          api_version sandbox (some pd) (some hd) (some s))).proxies k
        = Dict.get pd k) ∧
    (k ∉ Dict.keys pd →
      Dict.get (initSession (OrdwayClient.init email api_key company user_token
          api_version sandbox (some pd) (some hd) (some s))).proxies k
        = Dict.get s.proxies k) ∧
    initSession (OrdwayClient.init email api_key company user_token
        api_version sandbox none none (some s)) = s := by
  rw [initSession_init, initSession_init]
  simp only [applyHeaders, applyProxies, session_factory]
  exact ⟨fun hm => Dict.get_update_of_mem _ _ _ hnd hm,
         fun hm => Dict.get_update_of_not_mem _ _ _ hm,
         fun hm => Dict.get_update_of_mem _ _ _ pnd hm,
         fun hm => Dict.get_update_of_not_mem _ _ _ hm,
         trivial⟩

/-- Witness for `init_merges_headers_proxies`: a concrete session with an
existing header, a merged header mapping, and a merged proxy mapping. -/
theorem init_merges_headers_proxies_witness :
    Dict.get (initSession (OrdwayClient.init "a@b.com" "k" "acme" "t" "1" false
        (some [("https", "http://proxy:8080")]) (some [("X-Foo", "bar")])
        (some { headers := [("User-Agent", "ua")], proxies := [], closeCount := 0 }))).headers
      "X-Foo" = Dict.get [("X-Foo", "bar")] "X-Foo" :=
  (init_merges_headers_proxies "a@b.com" "k" "acme" "t" "1" false
    { headers := [("User-Agent", "ua")], proxies := [], closeCount := 0 }
    [("X-Foo", "bar")] [("https", "http://proxy:8080")] "X-Foo"
    (by decide) (by decide)).1 (by decide)

/-- C8: entering and then exiting the client scope closes the session exactly
once (the close count rises by exactly one); a second scope exit is again a
total operation — `Session.close` never raises — and simply closes again. -/
theorem scoped_exit_closes_once (c : OrdwayClient) :
    (OrdwayClient.exit (OrdwayClient.enter c)).session.closeCount
      = c.session.closeCount + 1 ∧
    (OrdwayClient.exit (OrdwayClient.exit (OrdwayClient.enter c))).session.closeCount
      = c.session.closeCount + 2 :=
  ⟨rfl, rfl⟩

/-- C9: the setter strips exactly one leading lowercase 'v' and nothing else —
an input starting with uppercase 'V' is not stripped, a doubled prefix loses
only its first 'v' (e.g. "vv1" becomes "v1"), and the remainder is validated
as-is, so any input whose stripped remainder is unsupported is rejected. -/
theorem strip_exactly_one_lowercase_v
    (c : OrdwayClient) (u v w : String)
    (hu : u.data.head? = some 'v') (hv : v.data.head? ≠ some 'v')
    (hw : stripLeadingV w ∉ SUPPORTED_API_VERSIONS) :
    stripLeadingV "V1" = "V1" ∧ stripLeadingV "vv1" = "v1" ∧
    stripLeadingV u = String.mk u.data.tail ∧
    stripLeadingV v = v ∧
    (OrdwayClient.set_api_version c w).result =
      Except.error { message := versionErrorMessage (stripLeadingV w) } ∧
    OrdwayClient.api_version (OrdwayClient.set_api_version c w).client
      = stripLeadingV w := by
  refine ⟨by decide, by decide, ?_, ?_, ?_, rfl⟩
  · rcases hdata : u.data with _ | ⟨a, rest⟩
    · simp [hdata] at hu
    · simp [hdata] at hu
      subst hu
      simp [stripLeadingV, hdata]
  · rcases hdata : v.data with _ | ⟨a, rest⟩
    · simp [stripLeadingV, hdata]
    · simp [hdata] at hv
      simp [stripLeadingV, hdata, hv]
  · simp [OrdwayClient.set_api_version, verify_api_version, hw]

/-- Witness for `strip_exactly_one_lowercase_v` at the doubled prefix "vv1",
the uppercase "V1", and the client `baseClient`. -/
theorem strip_exactly_one_lowercase_v_witness :
    ("vv1".data.head? = some 'v' ∧ "V1".data.head? ≠ some 'v' ∧
      stripLeadingV "V1" ∉ SUPPORTED_API_VERSIONS) ∧
    (stripLeadingV "V1" = "V1" ∧ stripLeadingV "vv1" = "v1" ∧
     stripLeadingV "vv1" = String.mk "vv1".data.tail ∧
     stripLeadingV "V1" = "V1" ∧
     (OrdwayClient.set_api_version baseClient "V1").result =
       Except.error { message := versionErrorMessage (stripLeadingV "V1") } ∧
     OrdwayClient.api_version (OrdwayClient.set_api_version baseClient "V1").client
       = stripLeadingV "V1") :=
  ⟨⟨by decide, by decide, by decide⟩,
   strip_exactly_one_lowercase_v baseClient "vv1" "V1" "V1"
     (by decide) (by decide) (by decide)⟩

/-- C10: construction merges the provided headers and proxies into the
caller-supplied session before validating the version, so when validation
fails the configuration error is raised with the shared session's defaults
already updated — the mutation persists past the failed construction. -/
theorem init_mutates_session_before_validation
    (email api_key company user_token api_version : String) (sandbox : Bool)
    (s : Session) (hd pd : Dict)
    (h : stripLeadingV api_version ∉ SUPPORTED_API_VERSIONS) :
    ∃ f, OrdwayClient.init email api_key company user_token api_version sandbox
           (some pd) (some hd) (some s) = Except.error f ∧
         f.session.headers = Dict.update s.headers hd ∧
         f.session.proxies = Dict.update s.proxies pd :=
  ⟨_, init_error_eq email api_key company user_token api_version sandbox
        (some pd) (some hd) (some s) h, rfl, rfl⟩

/-- Witness for `init_mutates_session_before_validation` at the unsupported
version "9" with concrete header and proxy mappings. -/
theorem init_mutates_session_before_validation_witness :
    stripLeadingV "9" ∉ SUPPORTED_API_VERSIONS ∧
    ∃ f, OrdwayClient.init "a@b.com" "k" "acme" "t" "9" false
           (some [("https", "http://proxy:8080")]) (some [("X-Foo", "bar")])
           (some { headers := [("User-Agent", "ua")], proxies := [], closeCount := 0 })
             = Except.error f ∧
         f.session.headers =
           Dict.update (Session.headers
             { headers := [("User-Agent", "ua")], proxies := [], closeCount := 0 })
             [("X-Foo", "bar")] ∧
         f.session.proxies =
           Dict.update (Session.proxies
             { headers := [("User-Agent", "ua")], proxies := [], closeCount := 0 })
             [("https", "http://proxy:8080")] :=
  ⟨by decide,
   init_mutates_session_before_validation "a@b.com" "k" "acme" "t" "9" false
     { headers := [("User-Agent", "ua")], proxies := [], closeCount := 0 }
     [("X-Foo", "bar")] [("https", "http://proxy:8080")] (by decide)⟩
